import Mathlib

/-!
Verification of the SEO retrieval-and-analysis pipeline
(`src/unnamed/part_000`, with `src/api/seo/seoanalyze.ts` as the
near-duplicate variant).

The analyzers, aggregator, recommendation generator, retrieval fallback
and HTTP error mapping are shallowly embedded below.  A parsed cheerio
document is represented by the `Doc` structure whose fields are exactly
the query results the analyzers consult; JavaScript string and number
primitives (`String.prototype.includes`, `String.prototype.split`,
`Math.round`, …) are modelled by the `js*` helpers.
-/

attribute [local semireducible] Rat.add Rat.mul Rat.sub Rat.inv

namespace AiSeo

/-- Whether `needle` occurs as a contiguous sublist of `hay`. -/
def listHasInfix (hay needle : List Char) : Bool :=
  needle.isPrefixOf hay ||
    match hay with
    | [] => false
    | _ :: t => listHasInfix t needle

/-- Model of JavaScript `hay.includes(needle)`: substring containment
(`''` is contained in everything, as in JS). -/
def jsIncludes (hay needle : String) : Bool :=
  listHasInfix hay.toList needle.toList

/-- Model of JavaScript `Math.round`: round half towards positive
infinity, `Math.round x = ⌊x + 1/2⌋`. -/
def jsRound (q : ℚ) : ℤ :=
  ⌊q + 1 / 2⌋

/-- Model of JavaScript `s.split(re)` where `re` matches maximal
nonempty runs of characters satisfying `p` (such as `/\s+/` or
`/[.!?]+/`): the pieces between runs, with an empty leading piece when
the string starts with a run, an empty trailing piece when it ends with
one, and `[""]` for the empty string. -/
def jsSplitRunsAux (p : Char → Bool) : List Char → List Char → Bool → List String → List String
  | [], acc, _, out => (String.mk acc.reverse :: out).reverse
  | c :: cs, acc, inRun, out =>
    if p c then
      if inRun then
        jsSplitRunsAux p cs acc true out
      else
        jsSplitRunsAux p cs [] true (String.mk acc.reverse :: out)
    else
      jsSplitRunsAux p cs (c :: acc) false out

/-- JavaScript `s.split(/[c]+/)` for a character class given by `p`. -/
def jsSplitRuns (p : Char → Bool) (s : String) : List String :=
  jsSplitRunsAux p s.toList [] false []

/-- Model of JavaScript `s.toLowerCase()` (ASCII case mapping). -/
def jsToLower (s : String) : String :=
  String.mk (s.toList.map Char.toLower)

/-- Model of JavaScript `s.trim()`: strip leading and trailing
whitespace. -/
def jsTrim (s : String) : String :=
  String.mk (((s.toList.dropWhile Char.isWhitespace).reverse.dropWhile
    Char.isWhitespace).reverse)

/-- Model of JavaScript `s.split(sep)` for a single-character
separator: split at every occurrence, keeping empty pieces
(`'a  b'.split(' ')` is `['a', '', 'b']`, `''.split(' ')` is `['']`). -/
def jsSplitOnCharAux (sep : Char) : List Char → List Char → List String → List String
  | [], acc, out => (String.mk acc.reverse :: out).reverse
  | c :: cs, acc, out =>
    if c == sep then jsSplitOnCharAux sep cs [] (String.mk acc.reverse :: out)
    else jsSplitOnCharAux sep cs (c :: acc) out

/-- JavaScript `s.split(sep)` for a one-character separator. -/
def jsSplitOnChar (sep : Char) (s : String) : List String :=
  jsSplitOnCharAux sep s.toList [] []

/-- Model of JavaScript `s.startsWith(pre)`. -/
def jsStartsWith (s pre : String) : Bool :=
  pre.toList.isPrefixOf s.toList

/-- Word character for the ECMAScript `\b` boundary: `[A-Za-z0-9_]`
(modelled with `Char.isAlphanum`). -/
def isWordChar (c : Char) : Bool :=
  c.isAlphanum || c == '_'

/-- Boundary side condition of the ECMAScript `\b` assertion: the
neighbouring character is absent (text edge) or not a word character. -/
def noWordChar (c : Option Char) : Bool :=
  match c with
  | none => true
  | some c => !isWordChar c

/-- Count of matches of the ECMAScript regex `\b<kw>\b` in a text, for
a keyword without regex metacharacters: occurrences of `kw` that are
not flanked by word characters.  `prev` is the character just before
the scan position, `rest` the remaining suffix of the text. -/
def countWordMatchesAux (kwl : List Char) : Option Char → List Char → List Unit
  | prev, rest =>
    let hit :=
      kwl.isPrefixOf rest &&
      noWordChar prev &&
      noWordChar (rest.drop kwl.length).head?
    match rest with
    | [] => if hit then [()] else []
    | c :: rs =>
      if hit then () :: countWordMatchesAux kwl (some c) rs
      else countWordMatchesAux kwl (some c) rs

/-- Count of whole-word matches of `kw` in `text`, the model of
`(text.match(new RegExp('\\b' + kw + '\\b', 'g')) || []).length` for a
metacharacter-free keyword. -/
def countWordMatches (text kw : String) : Nat :=
  (countWordMatchesAux kw.toList none text.toList).length

/-- Model of the ECMAScript `RegExp` constructor's syntax check,
only to the depth this code base exercises it: a pattern whose group
parentheses are unbalanced (ignoring backslash-escaped characters)
throws `SyntaxError`.  Finer validity distinctions of the regex grammar
are not modelled. -/
def jsRegexBalancedAux : List Char → Int → Bool
  | [], depth => depth == 0
  | '\\' :: rest, depth =>
    match rest with
    | [] => depth == 0
    | _ :: rs => jsRegexBalancedAux rs depth
  | '(' :: rest, depth => jsRegexBalancedAux rest (depth + 1)
  | ')' :: rest, depth => depth > 0 && jsRegexBalancedAux rest (depth - 1)
  | _ :: rest, depth => jsRegexBalancedAux rest depth

/-- Whether `new RegExp(pattern)` succeeds (see `jsRegexBalancedAux`). -/
def jsRegexValid (pattern : String) : Bool :=
  jsRegexBalancedAux pattern.toList 0

/-- The inline keyword-extraction expression shared verbatim by
`analyzeMetaDescription`, `analyzeHeadings` and `analyzeContentQuality`:
`$('title').text().toLowerCase().split(' ').filter(word => word.length > 3)`. -/
def titleKeywords (title : String) : List String :=
  (jsSplitOnChar ' ' (jsToLower title)).filter (fun word => word.length > 3)

/-- Impact classification of a dimension score. -/
inductive Impact where
  | positive
  | negative
  | neutral
deriving DecidableEq, Repr

/-- Impact level of a recommendation. -/
inductive RecImpact where
  | High
  | Medium
  | Low
deriving DecidableEq, Repr

/-- A JavaScript `string | number` value (numbers modelled as ℚ). -/
inductive JsValue where
  | str (s : String)
  | num (q : ℚ)
deriving DecidableEq, Repr

/-- The `details` field of `DetailedSEOScore`. -/
structure ScoreDetails where
  value : JsValue
  impact : Impact
  context : String
deriving DecidableEq, Repr

/-- One analyzer's output (`DetailedSEOScore` in the source). -/
structure DetailedSEOScore where
  score : Int
  category : String
  details : ScoreDetails
deriving DecidableEq, Repr

/-- A parsed cheerio document, abstracted to exactly the query results
the eight analyzers consult.  Each field's doc comment gives the source
expression it stands for; `Option` fields are `attr(...)` results
(`none` = attribute/element absent, i.e. `undefined`). -/
structure Doc where
  /-- Raw text content of the title element: `$('title').text()`. -/
  title : String
  /-- Content attribute of the description meta tag:
  `$('meta[name="description"]').attr('content')`. -/
  metaDescription : Option String
  /-- Texts of `$('body h1, body noscript h1')` elements, in order. -/
  h1Texts : List String
  /-- Count of `$('body h2, body noscript h2')`. -/
  h2Count : Nat
  /-- Count of `$('body h3, body noscript h3')`. -/
  h3Count : Nat
  /-- Content of `meta[name="viewport"]`. -/
  viewport : Option String
  /-- Href of `link[rel="canonical"]`. -/
  canonical : Option String
  /-- Content of `meta[name="robots"]`. -/
  robots : Option String
  /-- Content of `meta[property="og:title"]`. -/
  ogTitle : Option String
  /-- Content of `meta[property="og:description"]`. -/
  ogDescription : Option String
  /-- Content of `meta[property="og:image"]`. -/
  ogImage : Option String
  /-- Content of `meta[property="og:url"]`. -/
  ogUrl : Option String
  /-- Content of `meta[name="twitter:card"]`. -/
  twitterCard : Option String
  /-- Count of `script[type="application/ld+json"]` elements. -/
  jsonLdCount : Nat
  /-- Count of `img` elements. -/
  imgCount : Nat
  /-- Count of `img[alt]` elements. -/
  imgWithAlt : Nat
  /-- Href attributes of the `a[href]` elements, in document order. -/
  anchorHrefs : List String
  /-- Visible body text with script/style/noscript children removed:
  `$('body').clone().children('script, style, noscript').remove().end().text()`. -/
  bodyText : String
  /-- Text of the noscript elements: `$('noscript').text()`. -/
  noscriptText : String
  /-- Content of `meta[name="keywords"]`. -/
  metaKeywords : Option String
deriving Repr

/-- A document with nothing on it, the base for concrete test pages. -/
def emptyDoc : Doc where
  title := ""
  metaDescription := none
  h1Texts := []
  h2Count := 0
  h3Count := 0
  viewport := none
  canonical := none
  robots := none
  ogTitle := none
  ogDescription := none
  ogImage := none
  ogUrl := none
  twitterCard := none
  jsonLdCount := 0
  imgCount := 0
  imgWithAlt := 0
  anchorHrefs := []
  bodyText := ""
  noscriptText := ""
  metaKeywords := none

/-- JavaScript truthiness test for an optional attribute string:
`!x` is true when the attribute is `undefined` or `''`. -/
def attrFalsy (v : Option String) : Bool :=
  v.getD "" == ""

/-- JavaScript `v || d` for an optional attribute string. -/
def attrOr (v : Option String) (d : String) : String :=
  if attrFalsy v then d else v.getD ""

/-- Elements of `l` not seen before, keeping first occurrences. -/
def jsSetDedupAux (seen : List String) : List String → List String
  | [] => []
  | x :: xs =>
    if seen.contains x then jsSetDedupAux seen xs
    else x :: jsSetDedupAux (x :: seen) xs

/-- Model of `[...new Set(l)]`: remove duplicates keeping the first
occurrence of each element, in order. -/
def jsSetDedup (l : List String) : List String :=
  jsSetDedupAux [] l

/-- Model of `Number.prototype.toFixed(1)` on a nonnegative rational. -/
def jsToFixed1 (q : ℚ) : String :=
  let n : Int := jsRound (q * 10)
  toString (n / 10) ++ "." ++ toString (n % 10)

/-- Translation of `analyzeTitleTag` (src/unnamed/part_000 lines 354-395). -/
def analyzeTitleTag (doc : Doc) : DetailedSEOScore :=
  let title := jsTrim doc.title
  let titleLength := title.length
  if title = "" then
    { score := 0
      category := "Title Tag"
      details := { value := .str "Missing", impact := .negative
                   context := "A title tag is crucial for SEO and user experience." } }
  else if titleLength < 30 then
    { score := 100 - 30
      category := "Title Tag"
      details := { value := .num (titleLength : ℚ), impact := .negative
                   context := "Title is too short. Aim for 30-60 characters." } }
  else if titleLength > 60 then
    { score := 100 - 15
      category := "Title Tag"
      details := { value := .num (titleLength : ℚ), impact := .negative
                   context := "Title may be truncated in search results." } }
  else
    { score := 100
      category := "Title Tag"
      details := { value := .num (titleLength : ℚ), impact := .positive
                   context := "Title length is optimal." } }

/-- Translation of `analyzeMetaDescription` (src/unnamed/part_000 lines
397-448): length scoring plus a `-10` penalty when no title keyword
occurs (as a JS `includes` substring) in the lowercased description. -/
def analyzeMetaDescription (doc : Doc) : DetailedSEOScore :=
  let metaDescription := (doc.metaDescription.map jsTrim).getD ""
  let descLength := metaDescription.length
  if metaDescription = "" then
    { score := 0
      category := "Meta Description"
      details := { value := .str "Missing", impact := .negative
                   context := "A meta description is crucial for SEO and click-through rates." } }
  else
    let base : Int × Impact × String :=
      if descLength < 120 then
        (100 - 20, .negative, "Meta description is too short. Aim for 120-160 characters.")
      else if descLength > 160 then
        (100 - 10, .neutral,
          "Meta description exceeds 160 characters. Consider shortening it for optimal display in search results.")
      else
        (100, .positive, "Meta description length is optimal.")
    let keywords := titleKeywords doc.title
    let keywordInDescription :=
      keywords.any (fun keyword => jsIncludes (jsToLower metaDescription) keyword)
    let score := if keywordInDescription then base.1 else base.1 - 10
    let context :=
      if keywordInDescription then base.2.2
      else base.2.2 ++ " Consider including a relevant keyword from the title in the meta description."
    { score
      category := "Meta Description"
      details := { value := .num (descLength : ℚ), impact := base.2.1, context } }

/-- Translation of `analyzeHeadings` (src/unnamed/part_000 lines
450-499): H1/H2 counts plus a `-10` penalty when no title keyword
occurs (as a JS `includes` substring) in the joined lowercased H1 text. -/
def analyzeHeadings (doc : Doc) : DetailedSEOScore :=
  let h1Count := doc.h1Texts.length
  let h2Count := doc.h2Count
  let h3Count := doc.h3Count
  let base : Int × Impact × String :=
    if h1Count = 0 then
      (100 - 30, .negative, "Missing H1 heading. Each page should have exactly one H1 tag.")
    else if h1Count > 1 then
      (100 - 15, .negative,
        s!"Multiple H1 headings found ({h1Count}). Consider using only one H1 tag per page.")
    else
      (100, .positive, "Proper H1 usage.")
  let afterH2 : Int × String :=
    if h2Count = 0 then
      (base.1 - 10, base.2.2 ++ " No H2 headings found. Consider using H2 tags to structure your content.")
    else
      (base.1, base.2.2 ++ s!" Good use of H2 headings ({h2Count} found).")
  let keywords := titleKeywords doc.title
  let h1Text := String.intercalate " " (doc.h1Texts.map jsToLower)
  let keywordInH1 := keywords.any (fun keyword => jsIncludes h1Text keyword)
  let final : Int × String :=
    if keywordInH1 = false ∧ h1Count > 0 then
      (afterH2.1 - 10,
        afterH2.2 ++ " Consider including a relevant keyword from the title in the H1 tag.")
    else afterH2
  { score := final.1
    category := "Heading Structure"
    details := { value := .str s!"H1: {h1Count}, H2: {h2Count}, H3: {h3Count}"
                 impact := base.2.1
                 context := final.2 } }

/-- Translation of `analyzeMobileFriendliness` (src/unnamed/part_000
lines 501-529). -/
def analyzeMobileFriendliness (doc : Doc) : DetailedSEOScore :=
  let viewport := doc.viewport
  if attrFalsy viewport then
    { score := 100 - 50
      category := "Mobile-Friendliness"
      details := { value := .str (attrOr viewport "Not found"), impact := .negative
                   context := "No viewport meta tag found. This is crucial for mobile responsiveness." } }
  else if !(jsIncludes (viewport.getD "") "width=device-width") ||
          !(jsIncludes (viewport.getD "") "initial-scale=1") then
    { score := 100 - 25
      category := "Mobile-Friendliness"
      details := { value := .str (attrOr viewport "Not found"), impact := .negative
                   context := "Viewport meta tag is present but may not be optimally configured for mobile devices." } }
  else
    { score := 100
      category := "Mobile-Friendliness"
      details := { value := .str (attrOr viewport "Not found"), impact := .positive
                   context := "Viewport meta tag is properly configured for mobile devices." } }

/-- CSS `[href^=pat]` prefix test as used in the linking selectors: an
empty pattern represents nothing (matches no element). -/
def cssPrefixMatches (pat href : String) : Bool :=
  pat ≠ "" && jsStartsWith href pat

/-- Translation of `analyzeLinkingStructure` (src/unnamed/part_000
lines 531-567).  The selectors interpolate
`$('meta[property="og:url"]').attr('content')` into the selector text,
so a missing og:url becomes the literal string `"undefined"`. -/
def analyzeLinkingStructure (doc : Doc) : DetailedSEOScore :=
  let ogUrlStr := match doc.ogUrl with
    | some s => s
    | none => "undefined"
  let internalLinks :=
    (doc.anchorHrefs.filter (fun h => jsStartsWith h "/" || cssPrefixMatches ogUrlStr h)).length
  let externalLinks :=
    (doc.anchorHrefs.filter (fun h => jsStartsWith h "http" && !cssPrefixMatches ogUrlStr h)).length
  let base : Int × Impact × String :=
    if internalLinks = 0 then
      (100 - 20, .negative, "No internal links found. Consider adding links to other pages on your site.")
    else if internalLinks < 5 then
      (100 - 10, .neutral, "Few internal links found. Consider increasing internal linking.")
    else
      (100, .positive, "Good use of internal linking.")
  let final : Int × String :=
    if externalLinks = 0 then
      (base.1 - 10, base.2.2 ++ " No external links found. Consider adding links to authoritative sources.")
    else
      (base.1, base.2.2 ++ " Good use of external linking.")
  { score := final.1
    category := "Linking Structure"
    details := { value := .str s!"Internal: {internalLinks}, External: {externalLinks}"
                 impact := base.2.1
                 context := final.2 } }

/-- Translation of `analyzeTechnicalSEO` (src/unnamed/part_000 lines
643-703). -/
def analyzeTechnicalSEO (doc : Doc) : DetailedSEOScore :=
  let canonicalMissing := attrFalsy doc.canonical
  let viewportMissing := attrFalsy doc.viewport
  let robotsMissing := attrFalsy doc.robots
  let ogIncomplete := attrFalsy doc.ogTitle || attrFalsy doc.ogDescription || attrFalsy doc.ogImage
  let twitterMissing := attrFalsy doc.twitterCard
  let structuredMissing := doc.jsonLdCount = 0
  let score : Int := 100
    - (if canonicalMissing then 10 else 0)
    - (if viewportMissing then 10 else 0)
    - (if robotsMissing then 5 else 0)
    - (if ogIncomplete then 5 else 0)
    - (if twitterMissing then 5 else 0)
    - (if structuredMissing then 10 else 0)
  let issues : List String :=
    (if canonicalMissing then ["No canonical tag found"] else []) ++
    (if viewportMissing then ["No viewport meta tag found"] else []) ++
    (if robotsMissing then ["No robots meta tag found"] else []) ++
    (if ogIncomplete then ["Incomplete Open Graph tags"] else []) ++
    (if twitterMissing then ["No Twitter Card meta tag found"] else []) ++
    (if structuredMissing then ["No structured data (JSON-LD) found"] else [])
  let impact : Impact := if score < 70 then .negative else if score < 90 then .neutral else .positive
  { score
    category := "Technical SEO"
    details := { value := .num (score : ℚ)
                 impact
                 context :=
                   if issues.length > 0 then "Issues found: " ++ String.intercalate ", " issues
                   else "No major technical issues found" } }

/-- Translation of `analyzeImages` (src/unnamed/part_000 lines 705-744). -/
def analyzeImages (doc : Doc) : DetailedSEOScore :=
  let totalImages := doc.imgCount
  let imagesWithAlt := doc.imgWithAlt
  if totalImages = 0 then
    { score := 100
      category := "Image Optimization"
      details := { value := .num 0, impact := .neutral
                   context := "No images found on the page." } }
  else
    let altTextPercentage : ℚ := ((imagesWithAlt : ℚ) / (totalImages : ℚ)) * 100
    if altTextPercentage < 100 then
      { score := 100 - jsRound ((100 - altTextPercentage) / 2)
        category := "Image Optimization"
        details := { value := .num altTextPercentage, impact := .negative
                     context := s!"{totalImages - imagesWithAlt} out of {totalImages} images missing alt text." } }
    else
      { score := 100
        category := "Image Optimization"
        details := { value := .num altTextPercentage, impact := .positive
                     context := "All images have alt text." } }

/-- Translation of `analyzeContentQuality` (src/unnamed/part_000 lines
571-641).  The source builds `new RegExp('\\b' + keyword + '\\b', 'g')`
for each keyword; the constructor throws on a syntactically invalid
pattern (see `jsRegexValid`), so the analyzer is fallible and the
embedding returns `none` exactly when some keyword's pattern does not
compile. -/
def analyzeContentQuality (doc : Doc) : Option DetailedSEOScore :=
  let bodyText := jsTrim doc.bodyText
  let noscriptContent := jsTrim doc.noscriptText
  let combinedText := bodyText ++ " " ++ noscriptContent
  let wordCount := (jsSplitRuns Char.isWhitespace combinedText).length
  let base : Int × Impact × String :=
    if wordCount < 300 then
      (100 - 30, .negative, "Content length is too short. Aim for at least 300 words of quality content.")
    else if wordCount < 600 then
      (100 - 15, .neutral,
        "Content length is moderate. Consider expanding to at least 600 words for more comprehensive coverage.")
    else
      (100, .positive, "Good content length.")
  let afterNoscript : Int × String :=
    if noscriptContent.length > 0 then
      (base.1 + 5, base.2.2 ++ " Noscript content present, which is good for accessibility and SEO.")
    else
      (base.1, base.2.2)
  let metaKeywords : List String := match doc.metaKeywords with
    | none => []
    | some s => (jsSplitOnChar ',' (jsToLower s)).map jsTrim
  let allKeywords := jsSetDedup (metaKeywords ++ titleKeywords doc.title)
  let densityOpt : Option ℚ :=
    allKeywords.foldl
      (fun acc keyword =>
        match acc with
        | none => none
        | some density =>
          if jsRegexValid ("\\b" ++ keyword ++ "\\b") then
            some (density + (countWordMatches (jsToLower combinedText) keyword : ℚ) / (wordCount : ℚ))
          else none)
      (some 0)
  match densityOpt with
  | none => none
  | some keywordDensity =>
    let afterDensity : Int × String :=
      if keywordDensity < 1 / 100 then
        (afterNoscript.1 - 10,
          afterNoscript.2 ++ " Keyword density is low. Consider naturally incorporating more relevant keywords.")
      else if keywordDensity > 3 / 100 then
        (afterNoscript.1 - 5,
          afterNoscript.2 ++ " Keyword density is high. Ensure the content reads naturally and isn\x27t over-optimized.")
      else
        (afterNoscript.1, afterNoscript.2 ++ " Good keyword usage and density.")
    let sentences := jsSplitRuns (fun c => c == '.' || c == '!' || c == '?') bodyText
    let avgWordsPerSentence : ℚ := (wordCount : ℚ) / (sentences.length : ℚ)
    let final : Int × String :=
      if avgWordsPerSentence > 20 then
        (afterDensity.1 - 10,
          afterDensity.2 ++ " Average sentence length is high. Consider shortening sentences for better readability.")
      else afterDensity
    some
      { score := final.1
        category := "Content Quality"
        details := { value := .str ("Word count: " ++ toString wordCount ++
                       ", Avg words per sentence: " ++ jsToFixed1 avgWordsPerSentence)
                     impact := base.2.1
                     context := final.2 } }

/-- Result record of `calculateOverallScore`. -/
structure OverallScore where
  score : Int
  interpretation : String
  penalties : List String
  bonuses : List String
deriving DecidableEq, Repr

/-- Translation of `calculateOverallScore` (src/unnamed/part_000 lines
954-978; identical in src/api/seo/seoanalyze.ts lines 494-518). -/
def calculateOverallScore (scores : List DetailedSEOScore) : OverallScore :=
  let totalScore : Int := scores.foldl (fun acc score => acc + score.score) 0
  let overallScore := jsRound ((totalScore : ℚ) / (scores.length : ℚ))
  let penalties :=
    (scores.filter (fun score => score.details.impact = .negative)).map
      (fun score => s!"{score.category}: {score.details.context}")
  let bonuses :=
    (scores.filter (fun score => score.details.impact = .positive)).map
      (fun score => s!"{score.category}: {score.details.context}")
  let interpretation :=
    if overallScore ≥ 90 then "Excellent SEO optimization"
    else if overallScore ≥ 80 then "Good SEO, with room for improvement"
    else if overallScore ≥ 70 then "Average SEO, needs attention"
    else "Poor SEO, requires significant improvements"
  { score := overallScore, interpretation, penalties, bonuses }

/-- The dimension-score map handed to `generateEnhancedRecommendations`
(accessed through the eight fixed keys of the source object literal). -/
structure DetailedScores where
  titleScore : DetailedSEOScore
  metaDescriptionScore : DetailedSEOScore
  headingsScore : DetailedSEOScore
  imageOptimizationScore : DetailedSEOScore
  contentScore : DetailedSEOScore
  technicalScore : DetailedSEOScore
  mobileFriendlinessScore : DetailedSEOScore
  linkingStructureScore : DetailedSEOScore
deriving Repr

/-- A structured recommendation record. -/
structure Recommendation where
  id : String
  category : String
  impact : RecImpact
  title : String
  description : String
  steps : List String
  additionalContext : Option String
deriving DecidableEq, Repr

/-- Translation of `generateEnhancedRecommendations`
(src/unnamed/part_000 lines 980-1150): each conditional `push` becomes
a conditional singleton, concatenated in source order. -/
def generateEnhancedRecommendations (scores : DetailedScores) : List Recommendation :=
  (if scores.titleScore.score < 90 then
    [{ id := "title-optimization"
       category := "Meta Tags"
       impact := if scores.titleScore.score < 70 then .High else .Medium
       title := "Optimize Title Tag"
       description :=
         if scores.titleScore.details.context = "" then "Title needs improvement"
         else scores.titleScore.details.context
       steps := ["Keep title length between 30-60 characters",
         "Include primary keyword near the beginning",
         "Make it compelling and relevant to the page content",
         "Ensure each page has a unique title"]
       additionalContext := some "Title tags are crucial for SEO and click-through rates." }]
  else []) ++
  (if scores.metaDescriptionScore.score < 90 then
    [{ id := "meta-description-optimization"
       category := "Meta Tags"
       impact := if scores.metaDescriptionScore.score < 70 then .High else .Medium
       title := "Improve Meta Description"
       description :=
         if scores.metaDescriptionScore.details.context = "" then "Meta description needs optimization"
         else scores.metaDescriptionScore.details.context
       steps := ["Write a compelling description between 120-160 characters",
         "Include relevant keywords naturally",
         "Make it actionable and aligned with the page content",
         "Ensure each page has a unique meta description"]
       additionalContext := some "Meta descriptions impact click-through rates from search results." }]
  else []) ++
  (if scores.headingsScore.score < 100 then
    [{ id := "heading-structure-optimization"
       category := "Content Structure"
       impact := if scores.headingsScore.score < 70 then .High else .Medium
       title := "Optimize Heading Structure"
       description :=
         if scores.headingsScore.details.context = "" then "Heading structure needs improvement"
         else scores.headingsScore.details.context
       steps := ["Ensure there is exactly one H1 heading per page",
         "Use H2 and H3 subheadings to structure your content logically",
         "Include relevant keywords in headings naturally",
         "Check that headings in noscript content are properly structured"]
       additionalContext := some "Proper heading structure improves both SEO and user experience, including for users with JavaScript disabled." }]
  else []) ++
  (if scores.imageOptimizationScore.score < 90 then
    [{ id := "image-optimization"
       category := "Media Optimization"
       impact := if scores.imageOptimizationScore.score < 70 then .High else .Medium
       title := "Optimize Images"
       description :=
         if scores.imageOptimizationScore.details.context = "" then "Image optimization needed"
         else scores.imageOptimizationScore.details.context
       steps := ["Add descriptive alt text to all images",
         "Compress images to reduce file size",
         "Use descriptive file names for images",
         "Implement lazy loading for images below the fold"]
       additionalContext := some "Optimized images improve page load speed and accessibility." }]
  else []) ++
  (if scores.contentScore.score < 100 then
    [{ id := "content-optimization"
       category := "Content Quality"
       impact := if scores.contentScore.score < 70 then .High else .Medium
       title := "Enhance Content Quality"
       description :=
         if scores.contentScore.details.context = "" then "Content needs improvement"
         else scores.contentScore.details.context
       steps := ["Aim for at least 600 words of quality content, including noscript content",
         "Ensure content is valuable and relevant to users with and without JavaScript",
         "Incorporate relevant keywords naturally throughout the content",
         "Add internal and external links to provide additional value"]
       additionalContext := some "High-quality, comprehensive content is essential for SEO success, regardless of whether JavaScript is enabled." }]
  else []) ++
  (if scores.technicalScore.score < 90 then
    [{ id := "technical-seo-optimization"
       category := "Technical SEO"
       impact := if scores.technicalScore.score < 70 then .High else .Medium
       title := "Improve Technical SEO"
       description :=
         if scores.technicalScore.details.context = "" then "Technical improvements needed"
         else scores.technicalScore.details.context
       steps := ["Add a canonical tag to prevent duplicate content issues",
         "Implement a responsive design with proper viewport meta tag",
         "Add a robots meta tag to guide search engines",
         "Ensure proper XML sitemap implementation"]
       additionalContext := some "Technical SEO provides the foundation for overall SEO success." }]
  else []) ++
  (if jsIncludes scores.technicalScore.details.context "No noscript tag found" ||
      jsIncludes scores.technicalScore.details.context "Empty noscript tag found" then
    [{ id := "noscript-content-optimization"
       category := "Accessibility and SEO"
       impact := .Medium
       title := "Improve Noscript Content"
       description := "Add or improve content within noscript tags"
       steps := ["Add a noscript tag if not present",
         "Include relevant content within the noscript tag",
         "Ensure the noscript content provides value to users without JavaScript",
         "Consider adding a text version of your main content within noscript tags"]
       additionalContext := some "Noscript content improves accessibility for users without JavaScript and can be beneficial for SEO." }]
  else []) ++
  (if scores.mobileFriendlinessScore.score < 90 then
    [{ id := "mobile-optimization"
       category := "Mobile-Friendliness"
       impact := if scores.mobileFriendlinessScore.score < 70 then .High else .Medium
       title := "Improve Mobile-Friendliness"
       description :=
         if scores.mobileFriendlinessScore.details.context = "" then "Mobile optimization needed"
         else scores.mobileFriendlinessScore.details.context
       steps := ["Ensure viewport meta tag is properly set",
         "Use responsive design techniques",
         "Test on various mobile devices and screen sizes",
         "Optimize touch targets for mobile users"]
       additionalContext := some "Mobile-friendliness is crucial for both user experience and SEO." }]
  else []) ++
  (if scores.linkingStructureScore.score < 90 then
    [{ id := "linking-structure-optimization"
       category := "Content and Navigation"
       impact := if scores.linkingStructureScore.score < 70 then .High else .Medium
       title := "Enhance Linking Structure"
       description :=
         if scores.linkingStructureScore.details.context = "" then "Linking structure needs improvement"
         else scores.linkingStructureScore.details.context
       steps := ["Increase internal linking to relevant pages",
         "Add external links to authoritative sources",
         "Use descriptive anchor text for links",
         "Ensure all links are functional and relevant"]
       additionalContext := some "A good linking structure improves navigation and helps search engines understand your site." }]
  else [])

/-- Which fetch path produced (or was last attempting) the HTML; the
`fetchMethod` variable of `enhancedAnalyzeSEO`. -/
inductive FetchMethod where
  | axios
  | puppeteer
deriving DecidableEq, Repr

/-- The failure shapes `enhancedAnalyzeSEO`'s catch block distinguishes
for an axios error (`error.code` / `error.response` / `error.request`),
plus the catch-all cases. -/
inductive FailKind where
  | connRefused
  | notFound
  | httpResponse (status : Nat) (statusText : String)
  | noResponse
  | otherAxios
  | nonError
deriving DecidableEq, Repr

/-- Observable events of one `enhancedAnalyzeSEO` run, used to state
the retrieval-fallback discipline. -/
inductive FetchEvent where
  | staticAttempt
  | renderedAttempt
  | reportReturned
  | errorSurfaced
deriving DecidableEq, Repr

/-- Trace of `enhancedAnalyzeSEO`'s control flow (src/unnamed/part_000
lines 806-815, identical in src/api/seo/seoanalyze.ts lines 354-363):
axios is tried first; only if it throws is the puppeteer fetch tried,
exactly once, inside the catch; a second failure propagates to the
outer catch, which surfaces an error.  `analysisOk` records whether the
analysis phase after a successful fetch completed without throwing
(the outer catch also guards it). -/
def retrievalTrace (staticR renderedR : Except String String) (analysisOk : Bool) :
    List FetchEvent :=
  match staticR with
  | .ok _ =>
    .staticAttempt :: (if analysisOk then [.reportReturned] else [.errorSurfaced])
  | .error _ =>
    match renderedR with
    | .ok _ =>
      .staticAttempt :: .renderedAttempt ::
        (if analysisOk then [.reportReturned] else [.errorSurfaced])
    | .error _ => [.staticAttempt, .renderedAttempt, .errorSurfaced]

/-- Translation of `enhancedAnalyzeSEO`'s catch block (src/unnamed/
part_000 lines 865-882): builds the surfaced error message from the
fetch method in effect and the failure shape. -/
def analyzeErrorMessage (fetchMethod : FetchMethod) (url : String) (kind : FailKind) : String :=
  match fetchMethod, kind with
  | .axios, .connRefused =>
    s!"Connection refused to {url}. The website might be blocking automated requests."
  | .axios, .notFound =>
    s!"Domain {url} not found. Please check if the URL is correct."
  | .axios, .httpResponse status statusText =>
    s!"Server responded with error: {status} {statusText}"
  | .axios, .noResponse =>
    s!"No response received from {url}. The website might be blocking automated requests."
  | .axios, .otherAxios =>
    "Unknown error occurred while analyzing the website"
  | .puppeteer, .nonError =>
    "Unknown error occurred while analyzing the website"
  | .puppeteer, _ =>
    s!"Failed to analyze {url} using browser simulation. The website might have strong anti-bot measures."
  | .axios, .nonError =>
    "Unknown error occurred while analyzing the website"

/-- Translation of the handler's status-code mapping (src/unnamed/
part_000 lines 925-940, identical in src/api/seo/seoanalyze.ts lines
465-480): 400 when the message contains the literal `'Domain not
found'`, 503 when it contains `'Connection refused'` or `'No response
received'`, otherwise 500. -/
def handlerStatusCode (errorMessage : String) : Nat :=
  if jsIncludes errorMessage "Domain not found" then 400
  else if jsIncludes errorMessage "Connection refused" ||
          jsIncludes errorMessage "No response received" then 503
  else 500

/-- The message `normalizeUrl` throws for an unparsable URL
(src/unnamed/part_000 lines 341-352). -/
def invalidUrlMessage (url : String) : String :=
  s!"Invalid URL: {url}"

/-- Modelled from the spec: a keyword is "present" in a target text if
the target's lowercase form contains it as a whole-word match (not a
mere substring).  Stated with the ECMAScript `\b` boundary (no word
character on either side); used only to compare the spec's description
of keyword presence with the code's. -/
def specWholeWordPresent (keywords : List String) (target : String) : Bool :=
  keywords.any (fun keyword => countWordMatches (jsToLower target) keyword > 0)

section Lemmas

/-- JavaScript rounding lands within one half of its argument. -/
theorem jsRound_close (q : ℚ) : |((jsRound q : ℤ) : ℚ) - q| ≤ 1 / 2 := by
  rw [abs_le]
  constructor
  · have h := Int.sub_one_lt_floor (q + 1 / 2)
    simp only [jsRound]
    linarith
  · have h := Int.floor_le (q + 1 / 2)
    simp only [jsRound]
    linarith

/-- The aggregator's `reduce` is summation of the score projections. -/
theorem foldl_add_score (l : List DetailedSEOScore) (a : ℤ) :
    l.foldl (fun acc s => acc + s.score) a = a + (l.map (fun s => s.score)).sum := by
  induction l generalizing a with
  | nil => simp
  | cons x t ih => simp [ih, add_assoc]

/-- Negative-filtered entries followed by positive-filtered entries are
a permutation of the non-neutral-filtered entries. -/
theorem filter_neg_pos_perm (f : DetailedSEOScore → String) (l : List DetailedSEOScore) :
    ((l.filter (fun s => s.details.impact = .negative)).map f ++
      (l.filter (fun s => s.details.impact = .positive)).map f).Perm
      ((l.filter (fun s => s.details.impact ≠ .neutral)).map f) := by
  induction l with
  | nil => simp
  | cons x t ih =>
    cases hx : x.details.impact with
    | negative =>
      simp only [List.filter_cons, hx]
      simpa using ih.cons (f x)
    | positive =>
      simp only [List.filter_cons, hx]
      simp
      refine (List.perm_middle).trans (List.Perm.cons (f x) ?_)
      simpa using ih
    | neutral =>
      simp only [List.filter_cons, hx]
      simpa using ih

end Lemmas

def sampleNegScore : DetailedSEOScore :=
  { score := -50, category := "Dim A"
    details := { value := .num 0, impact := .negative, context := "stacked penalties" } }

def sampleBigScore : DetailedSEOScore :=
  { score := 120, category := "Dim B"
    details := { value := .num 0, impact := .positive, context := "stacked bonuses" } }

def sampleMidScore : DetailedSEOScore :=
  { score := 55, category := "Dim C"
    details := { value := .num 0, impact := .neutral, context := "ok" } }

/-- C1: for every nonempty list of dimension scores (negative and
above-100 values included), the aggregated overall score is the
arithmetic mean rounded to the nearest integer: it equals
`Math.round(mean)` and differs from the exact mean by at most 1/2. -/
theorem overallScore_is_rounded_mean (scores : List DetailedSEOScore)
    (_h : scores ≠ []) :
    (calculateOverallScore scores).score =
      jsRound ((((scores.map (fun s => s.score)).sum : ℤ) : ℚ) / (scores.length : ℚ)) ∧
    |(((calculateOverallScore scores).score : ℤ) : ℚ) -
        (((scores.map (fun s => s.score)).sum : ℤ) : ℚ) / (scores.length : ℚ)| ≤ 1 / 2 := by
  have hs : (calculateOverallScore scores).score =
      jsRound ((((scores.map (fun s => s.score)).sum : ℤ) : ℚ) / (scores.length : ℚ)) := by
    simp [calculateOverallScore, foldl_add_score]
  exact ⟨hs, by rw [hs]; exact jsRound_close _⟩

/-- Witness for C1 at a list containing a negative and an above-100
score: sum −50 + 120 + 55 = 125, mean 125/3, rounded overall score 42. -/
theorem overallScore_is_rounded_mean_witness :
    ([sampleNegScore, sampleBigScore, sampleMidScore] ≠ ([] : List DetailedSEOScore)) ∧
    ((calculateOverallScore [sampleNegScore, sampleBigScore, sampleMidScore]).score =
      jsRound (((([sampleNegScore, sampleBigScore, sampleMidScore].map
          (fun s => s.score)).sum : ℤ) : ℚ) /
        (([sampleNegScore, sampleBigScore, sampleMidScore] : List DetailedSEOScore).length : ℚ)) ∧
    |((((calculateOverallScore [sampleNegScore, sampleBigScore, sampleMidScore]).score : ℤ)) : ℚ) -
        ((([sampleNegScore, sampleBigScore, sampleMidScore].map
          (fun s => s.score)).sum : ℤ) : ℚ) /
        (([sampleNegScore, sampleBigScore, sampleMidScore] : List DetailedSEOScore).length : ℚ)| ≤ 1 / 2) :=
  ⟨by simp, overallScore_is_rounded_mean [sampleNegScore, sampleBigScore, sampleMidScore] (by simp)⟩

/-- C4: the aggregator's `penalties` list is exactly the entries of the
dimensions with negative impact (in order) and `bonuses` exactly those
with positive impact; no dimension satisfies both filters (the count of
dimensions that are simultaneously negative and positive is zero), so
together the two lists are exactly the entries of the non-neutral
dimensions (as a permutation: negatives first, then positives) and
jointly cover the non-neutral count — no dimension appears in both. -/
theorem overallScore_penalties_bonuses_partition (scores : List DetailedSEOScore) :
    (calculateOverallScore scores).penalties =
      (scores.filter (fun s => s.details.impact = .negative)).map
        (fun s => s!"{s.category}: {s.details.context}") ∧
    (calculateOverallScore scores).bonuses =
      (scores.filter (fun s => s.details.impact = .positive)).map
        (fun s => s!"{s.category}: {s.details.context}") ∧
    scores.countP (fun s =>
      s.details.impact == Impact.negative && s.details.impact == Impact.positive) = 0 ∧
    ((calculateOverallScore scores).penalties ++ (calculateOverallScore scores).bonuses).Perm
      ((scores.filter (fun s => s.details.impact ≠ .neutral)).map
        (fun s => s!"{s.category}: {s.details.context}")) ∧
    (calculateOverallScore scores).penalties.length +
        (calculateOverallScore scores).bonuses.length =
      (scores.filter (fun s => s.details.impact ≠ .neutral)).length := by
  have hperm := filter_neg_pos_perm
    (fun s => s!"{s.category}: {s.details.context}") scores
  refine ⟨by simp [calculateOverallScore], by simp [calculateOverallScore], ?_,
    by simpa [calculateOverallScore] using hperm, ?_⟩
  · rw [List.countP_eq_zero]
    intro s _
    cases s.details.impact <;> decide
  · have := hperm.length_eq
    simpa [calculateOverallScore] using this

/-- C2: in every retrieval run, a successful static fetch means the
rendered (puppeteer) fetch is never attempted, and a failed static
fetch means the rendered fetch is attempted exactly once, and before
any surfaced error. -/
theorem retrieval_fallback_discipline (staticR renderedR : Except String String)
    (analysisOk : Bool) :
    (staticR.isOk = true →
      (retrievalTrace staticR renderedR analysisOk).count FetchEvent.renderedAttempt = 0) ∧
    (staticR.isOk = false →
      (retrievalTrace staticR renderedR analysisOk).count FetchEvent.renderedAttempt = 1 ∧
      (FetchEvent.errorSurfaced ∈ retrievalTrace staticR renderedR analysisOk →
        [FetchEvent.renderedAttempt, FetchEvent.errorSurfaced].Sublist
          (retrievalTrace staticR renderedR analysisOk))) := by
  cases staticR <;> cases renderedR <;> cases analysisOk <;>
    simp [retrievalTrace, Except.isOk, Except.toBool]

/-- Witness for C2: a run whose static fetch succeeds attempts no
rendered fetch, and a run whose static fetch fails attempts the
rendered fetch exactly once before surfacing the error. -/
theorem retrieval_fallback_discipline_witness :
    ((retrievalTrace (Except.ok "<html>") (Except.error "never") true).count
        FetchEvent.renderedAttempt = 0) ∧
    ((retrievalTrace (Except.error "ECONNREFUSED") (Except.error "timeout") true).count
        FetchEvent.renderedAttempt = 1 ∧
      (FetchEvent.errorSurfaced ∈
          retrievalTrace (Except.error "ECONNREFUSED") (Except.error "timeout") true →
        [FetchEvent.renderedAttempt, FetchEvent.errorSurfaced].Sublist
          (retrievalTrace (Except.error "ECONNREFUSED") (Except.error "timeout") true))) :=
  ⟨(retrieval_fallback_discipline (Except.ok "<html>") (Except.error "never") true).1 rfl,
    (retrieval_fallback_discipline (Except.error "ECONNREFUSED") (Except.error "timeout") true).2 rfl⟩

/-- Counting over one conditional push of the generator. -/
theorem countP_conditional_singleton (p : Recommendation → Bool) (c : Prop) [Decidable c]
    (a : Recommendation) :
    List.countP p (if c then [a] else []) = if c then (if p a then 1 else 0) else 0 := by
  split <;> simp [List.countP_cons]

/-- C3: for every dimension-score map, each dimension emits exactly one
recommendation (identified by its stable slug id) exactly when its
score is below its threshold — 100 for headings and content, 90 for
the six others — with impact `High` exactly when the score is below 70
and `Medium` exactly when it is between 70 and the threshold; a
dimension at or above threshold emits none. -/
theorem recommendations_thresholds (s : DetailedScores) :
    ((generateEnhancedRecommendations s).countP (fun r => r.id == "title-optimization") =
      if s.titleScore.score < 90 then 1 else 0) ∧
    ((generateEnhancedRecommendations s).countP
        (fun r => r.id == "title-optimization" && decide (r.impact = RecImpact.High)) =
      if s.titleScore.score < 70 then 1 else 0) ∧
    ((generateEnhancedRecommendations s).countP
        (fun r => r.id == "title-optimization" && decide (r.impact = RecImpact.Medium)) =
      if 70 ≤ s.titleScore.score ∧ s.titleScore.score < 90 then 1 else 0) ∧
    ((generateEnhancedRecommendations s).countP (fun r => r.id == "meta-description-optimization") =
      if s.metaDescriptionScore.score < 90 then 1 else 0) ∧
    ((generateEnhancedRecommendations s).countP
        (fun r => r.id == "meta-description-optimization" && decide (r.impact = RecImpact.High)) =
      if s.metaDescriptionScore.score < 70 then 1 else 0) ∧
    ((generateEnhancedRecommendations s).countP
        (fun r => r.id == "meta-description-optimization" && decide (r.impact = RecImpact.Medium)) =
      if 70 ≤ s.metaDescriptionScore.score ∧ s.metaDescriptionScore.score < 90 then 1 else 0) ∧
    ((generateEnhancedRecommendations s).countP (fun r => r.id == "heading-structure-optimization") =
      if s.headingsScore.score < 100 then 1 else 0) ∧
    ((generateEnhancedRecommendations s).countP
        (fun r => r.id == "heading-structure-optimization" && decide (r.impact = RecImpact.High)) =
      if s.headingsScore.score < 70 then 1 else 0) ∧
    ((generateEnhancedRecommendations s).countP
        (fun r => r.id == "heading-structure-optimization" && decide (r.impact = RecImpact.Medium)) =
      if 70 ≤ s.headingsScore.score ∧ s.headingsScore.score < 100 then 1 else 0) ∧
    ((generateEnhancedRecommendations s).countP (fun r => r.id == "image-optimization") =
      if s.imageOptimizationScore.score < 90 then 1 else 0) ∧
    ((generateEnhancedRecommendations s).countP
        (fun r => r.id == "image-optimization" && decide (r.impact = RecImpact.High)) =
      if s.imageOptimizationScore.score < 70 then 1 else 0) ∧
    ((generateEnhancedRecommendations s).countP
        (fun r => r.id == "image-optimization" && decide (r.impact = RecImpact.Medium)) =
      if 70 ≤ s.imageOptimizationScore.score ∧ s.imageOptimizationScore.score < 90 then 1 else 0) ∧
    ((generateEnhancedRecommendations s).countP (fun r => r.id == "content-optimization") =
      if s.contentScore.score < 100 then 1 else 0) ∧
    ((generateEnhancedRecommendations s).countP
        (fun r => r.id == "content-optimization" && decide (r.impact = RecImpact.High)) =
      if s.contentScore.score < 70 then 1 else 0) ∧
    ((generateEnhancedRecommendations s).countP
        (fun r => r.id == "content-optimization" && decide (r.impact = RecImpact.Medium)) =
      if 70 ≤ s.contentScore.score ∧ s.contentScore.score < 100 then 1 else 0) ∧
    ((generateEnhancedRecommendations s).countP (fun r => r.id == "technical-seo-optimization") =
      if s.technicalScore.score < 90 then 1 else 0) ∧
    ((generateEnhancedRecommendations s).countP
        (fun r => r.id == "technical-seo-optimization" && decide (r.impact = RecImpact.High)) =
      if s.technicalScore.score < 70 then 1 else 0) ∧
    ((generateEnhancedRecommendations s).countP
        (fun r => r.id == "technical-seo-optimization" && decide (r.impact = RecImpact.Medium)) =
      if 70 ≤ s.technicalScore.score ∧ s.technicalScore.score < 90 then 1 else 0) ∧
    ((generateEnhancedRecommendations s).countP (fun r => r.id == "mobile-optimization") =
      if s.mobileFriendlinessScore.score < 90 then 1 else 0) ∧
    ((generateEnhancedRecommendations s).countP
        (fun r => r.id == "mobile-optimization" && decide (r.impact = RecImpact.High)) =
      if s.mobileFriendlinessScore.score < 70 then 1 else 0) ∧
    ((generateEnhancedRecommendations s).countP
        (fun r => r.id == "mobile-optimization" && decide (r.impact = RecImpact.Medium)) =
      if 70 ≤ s.mobileFriendlinessScore.score ∧ s.mobileFriendlinessScore.score < 90 then 1 else 0) ∧
    ((generateEnhancedRecommendations s).countP (fun r => r.id == "linking-structure-optimization") =
      if s.linkingStructureScore.score < 90 then 1 else 0) ∧
    ((generateEnhancedRecommendations s).countP
        (fun r => r.id == "linking-structure-optimization" && decide (r.impact = RecImpact.High)) =
      if s.linkingStructureScore.score < 70 then 1 else 0) ∧
    ((generateEnhancedRecommendations s).countP
        (fun r => r.id == "linking-structure-optimization" && decide (r.impact = RecImpact.Medium)) =
      if 70 ≤ s.linkingStructureScore.score ∧ s.linkingStructureScore.score < 90 then 1 else 0) := by
  repeat' constructor
  all_goals
    simp [generateEnhancedRecommendations, List.countP_append, countP_conditional_singleton]
  all_goals
    split_ifs <;> first | rfl | omega

/-- C5 counterexample: the claim maps an unresolvable URL (the
ENOTFOUND classification) to status 400, but the generated message is
`Domain https://nosuchdomain.example/ not found. …`, which does not
contain the literal `'Domain not found'` the 400 branch tests for, so
the handler returns 500. -/
theorem statusCode_notFound_counterexample :
    handlerStatusCode
        (analyzeErrorMessage FetchMethod.axios "https://nosuchdomain.example/" FailKind.notFound) =
      500 ∧
    handlerStatusCode
        (analyzeErrorMessage FetchMethod.axios "https://nosuchdomain.example/" FailKind.notFound) ≠
      400 := by
  constructor
  · decide
  · decide

/-- A needle occurs as an infix exactly when it is a prefix of some
suffix. -/
theorem listHasInfix_iff (needle hay : List Char) :
    listHasInfix hay needle = true ↔ ∃ n, needle.isPrefixOf (hay.drop n) = true := by
  induction hay with
  | nil => simp [listHasInfix]
  | cons c t ih =>
    rw [listHasInfix]
    simp only [Bool.or_eq_true, ih]
    constructor
    · rintro (h | ⟨n, hn⟩)
      · exact ⟨0, by simpa using h⟩
      · exact ⟨n + 1, by simpa using hn⟩
    · rintro ⟨n, hn⟩
      cases n with
      | zero => exact Or.inl (by simpa using hn)
      | succ k => exact Or.inr ⟨k, by simpa using hn⟩

/-- A needle whose first character does not occur in the haystack is
not contained in it. -/
theorem jsIncludes_eq_false_of_head_notMem (hay needle : String) (c : Char) (l : List Char)
    (hne : needle.data = c :: l) (hc : c ∉ hay.data) : jsIncludes hay needle = false := by
  rw [Bool.eq_false_iff]
  intro htrue
  rw [jsIncludes] at htrue
  simp only [String.toList] at htrue
  rw [listHasInfix_iff] at htrue
  obtain ⟨n, hn⟩ := htrue
  rw [hne, List.isPrefixOf_iff_prefix] at hn
  obtain ⟨t, ht⟩ := hn
  apply hc
  apply List.mem_of_mem_drop (n := n)
  rw [← ht]
  simp

/-- A needle that starts the haystack is contained in it. -/
theorem jsIncludes_of_isPrefixOf (hay needle : String)
    (h : needle.data.isPrefixOf hay.data = true) : jsIncludes hay needle = true := by
  rw [jsIncludes]
  simp only [String.toList]
  exact (listHasInfix_iff _ _).mpr ⟨0, by simpa using h⟩


/-- The accumulator-passing digit renderer emits only digit characters
(in base 10). -/
theorem toDigitsCore_isDigit (fuel : Nat) :
    ∀ (n : Nat) (ds : List Char), (∀ c ∈ ds, c.isDigit = true) →
      ∀ c ∈ Nat.toDigitsCore 10 fuel n ds, c.isDigit = true := by
  induction fuel with
  | zero =>
    intro n ds hds c hc
    rw [Nat.toDigitsCore] at hc
    exact hds c hc
  | succ f ih =>
    intro n ds hds c hc
    rw [Nat.toDigitsCore] at hc
    have hd : (Nat.digitChar (n % 10)).isDigit = true := by
      have h10 : n % 10 < 10 := Nat.mod_lt _ (by norm_num)
      set k := n % 10 with hk
      interval_cases k <;> decide
    have hds' : ∀ ch ∈ Nat.digitChar (n % 10) :: ds, ch.isDigit = true := by
      intro ch hch
      rcases List.mem_cons.mp hch with h | h
      · rw [h]; exact hd
      · exact hds ch h
    split at hc
    · exact hds' c hc
    · exact ih (n / 10) _ hds' c hc

/-- Every character of a rendered natural number is a digit. -/
theorem natRepr_isDigit (n : Nat) : ∀ c ∈ (Nat.repr n).data, c.isDigit = true := by
  intro c hc
  rw [Nat.repr] at hc
  exact toDigitsCore_isDigit (n + 1) n [] (by simp) c hc

/-- Condition on user-controlled text (URL, HTTP status text) ruling
out the capital letters that begin the handler-matched phrases
`Domain not found`, `Connection refused`, `No response received`. -/
def noPhraseCapitals (s : String) : Bool :=
  s.data.all (fun c => !(c == 'D' || c == 'C' || c == 'N'))

/-- Unpacking `noPhraseCapitals`. -/
theorem noPhraseCapitals_spec (s : String) (h : noPhraseCapitals s = true) :
    'D' ∉ s.data ∧ 'C' ∉ s.data ∧ 'N' ∉ s.data := by
  rw [noPhraseCapitals, List.all_eq_true] at h
  refine ⟨fun hm => ?_, fun hm => ?_, fun hm => ?_⟩ <;> simpa using h _ hm

/-- The ENOTFOUND message `Domain <url> not found. …` does not contain
the literal `Domain not found` when the URL text has no 'D' and does
not start with 'n' (normalized URLs start with `http`). -/
theorem notFound_message_excludes_phrase (url : String)
    (hD : 'D' ∉ url.data) (hn : url.data.head? ≠ some 'n') :
    jsIncludes ("Domain " ++ url ++ " not found. Please check if the URL is correct.")
      "Domain not found" = false := by
  rw [Bool.eq_false_iff]
  intro htrue
  rw [jsIncludes] at htrue
  simp only [String.toList, String.data_append] at htrue
  rw [listHasInfix_iff] at htrue
  obtain ⟨k, hk⟩ := htrue
  rw [List.isPrefixOf_iff_prefix] at hk
  obtain ⟨t, ht⟩ := hk
  cases k with
  | zero =>
    simp only [List.drop_zero] at ht
    have h7 := congrArg (fun l => (List.drop 7 l).head?) ht
    simp only at h7
    rw [List.drop_append_of_le_length (by decide), List.append_assoc,
      List.drop_left' (by decide)] at h7
    have hl : (List.drop 7 ("Domain not found".data) ++ t).head? = some 'n' := rfl
    rw [hl] at h7
    cases hud : url.data with
    | nil =>
      rw [hud] at h7
      exact absurd h7 (by decide)
    | cons c cs =>
      rw [hud] at h7
      simp only [List.cons_append, List.head?_cons] at h7
      apply hn
      rw [hud, List.head?_cons]
      exact h7.symm
  | succ j =>
    have hDmem : 'D' ∈ ("Domain not found".data ++ t) := by
      simp
    rw [ht] at hDmem
    have hshape : (("Domain ".data ++ url.data) ++
        (" not found. Please check if the URL is correct.").data) =
        'D' :: ("omain ".data ++ url.data ++
          (" not found. Please check if the URL is correct.").data) := by
      simp
    rw [hshape, List.drop_succ_cons] at hDmem
    have hmem := List.mem_of_mem_drop hDmem
    rw [List.append_assoc, List.mem_append, List.mem_append] at hmem
    rcases hmem with h | h | h
    · exact absurd h (by decide)
    · exact hD h
    · exact absurd h (by decide)


/-- Prefixes extend along appends. -/
theorem isPrefixOf_append_right {a b : List Char} (l : List Char)
    (h : a.isPrefixOf b = true) : a.isPrefixOf (b ++ l) = true := by
  rw [List.isPrefixOf_iff_prefix] at h ⊢
  exact h.trans (b.prefix_append l)

/-- Character absence in the three-part `lit1 ++ user ++ lit2` message
shapes. -/
theorem notMem_msg3 {c : Char} {lit1 user lit2 : String}
    (h1 : c ∉ lit1.data) (hu : c ∉ user.data) (h2 : c ∉ lit2.data) :
    c ∉ (lit1 ++ user ++ lit2).data := by
  intro h
  simp only [String.data_append, List.mem_append] at h
  rcases h with (h | h) | h
  · exact h1 h
  · exact hu h
  · exact h2 h

/-- Character absence in the HTTP-error message shape, whose
user-controlled parts are a rendered numeric status and a status
text. -/
theorem notMem_msg_httpResponse {c : Char} (status : Nat) {txt : String}
    (hlit : c ∉ "Server responded with error: ".data) (hsp : c ≠ ' ')
    (hdig : c.isDigit = false) (htxt : c ∉ txt.data) :
    c ∉ ("Server responded with error: " ++ Nat.repr status ++ " " ++ txt ++ "").data := by
  intro h
  simp only [String.data_append, List.mem_append] at h
  rcases h with (((h | h) | h) | h) | h
  · exact hlit h
  · have := natRepr_isDigit status c h
    rw [hdig] at this
    exact Bool.noConfusion this
  · exact hsp (by simpa using h)
  · exact htxt h
  · simp at h

/-- The handler returns 500 when the message contains none of the
matched phrases. -/
theorem handlerStatusCode_eq_500 (msg : String)
    (hD : jsIncludes msg "Domain not found" = false)
    (hC : jsIncludes msg "Connection refused" = false)
    (hN : jsIncludes msg "No response received" = false) :
    handlerStatusCode msg = 500 := by
  simp [handlerStatusCode, hD, hC, hN]

/-- The handler returns 503 when the message avoids `Domain not found`
but contains one of the two 503 phrases. -/
theorem handlerStatusCode_eq_503 (msg : String)
    (hD : jsIncludes msg "Domain not found" = false)
    (hOr : jsIncludes msg "Connection refused" = true ∨
      jsIncludes msg "No response received" = true) :
    handlerStatusCode msg = 503 := by
  rcases hOr with h | h <;> simp [handlerStatusCode, hD, h]

/-- C5 amended: the handler classifies purely by substring search on
the error message — it returns 400 exactly when the message contains
the literal `Domain not found`.  For the generated messages this is a
smuggling channel, not the ENOTFOUND mapping: the domain-not-found
message reads `Domain <url> not found. …` and contains the matched
phrase only when the URL text itself supplies it (e.g. a path ending
in `Domain`).  For every URL that contains none of the capitals
`D`/`C`/`N` starting the matched phrases and begins with `http` (as
every normalized lowercase URL does), and every HTTP status text
likewise free of those capitals: connection-refused and no-response
failures map to 503, and every other failure — unresolvable domain,
non-2xx HTTP response, other axios failures, non-Error throws, every
puppeteer-stage failure, and the `Invalid URL: …` message of a
malformed URL — maps to 500. -/
theorem statusCode_mapping_amended :
    (∀ msg, handlerStatusCode msg = 400 ↔ jsIncludes msg "Domain not found" = true) ∧
    (∀ url, noPhraseCapitals url = true → jsStartsWith url "http" = true →
      handlerStatusCode (analyzeErrorMessage FetchMethod.axios url FailKind.connRefused) = 503 ∧
      handlerStatusCode (analyzeErrorMessage FetchMethod.axios url FailKind.noResponse) = 503 ∧
      handlerStatusCode (analyzeErrorMessage FetchMethod.axios url FailKind.notFound) = 500 ∧
      handlerStatusCode (analyzeErrorMessage FetchMethod.axios url FailKind.otherAxios) = 500 ∧
      handlerStatusCode (analyzeErrorMessage FetchMethod.axios url FailKind.nonError) = 500 ∧
      (∀ status statusText, noPhraseCapitals statusText = true →
        handlerStatusCode (analyzeErrorMessage FetchMethod.axios url
          (FailKind.httpResponse status statusText)) = 500) ∧
      (∀ kind, handlerStatusCode (analyzeErrorMessage FetchMethod.puppeteer url kind) = 500) ∧
      handlerStatusCode (invalidUrlMessage url) = 500) := by
  constructor
  · intro msg
    rw [handlerStatusCode]
    split_ifs with h1 h2
    · exact iff_of_true rfl h1
    · exact iff_of_false (by norm_num) (by simpa using h1)
    · exact iff_of_false (by norm_num) (by simpa using h1)
  · intro url hu hs
    obtain ⟨hD, hC, hN⟩ := noPhraseCapitals_spec url hu
    have hhead : url.data.head? = some 'h' := by
      rw [jsStartsWith, List.isPrefixOf_iff_prefix] at hs
      obtain ⟨t, ht⟩ := hs
      simp only [String.toList] at ht
      rw [← ht]
      rfl
    refine ⟨?_, ?_, ?_, ?_, ?_, ?_, ?_, ?_⟩
    · exact handlerStatusCode_eq_503 _
        (jsIncludes_eq_false_of_head_notMem _ _ 'D' _ rfl
          (notMem_msg3 (by decide) hD (by decide)))
        (Or.inl (jsIncludes_of_isPrefixOf _ _
          (isPrefixOf_append_right _ (isPrefixOf_append_right _ (by decide)))))
    · exact handlerStatusCode_eq_503 _
        (jsIncludes_eq_false_of_head_notMem _ _ 'D' _ rfl
          (notMem_msg3 (by decide) hD (by decide)))
        (Or.inr (jsIncludes_of_isPrefixOf _ _
          (isPrefixOf_append_right _ (isPrefixOf_append_right _ (by decide)))))
    · exact handlerStatusCode_eq_500 _
        (notFound_message_excludes_phrase url hD (by rw [hhead]; decide))
        (jsIncludes_eq_false_of_head_notMem _ _ 'C' _ rfl
          (notMem_msg3 (by decide) hC (by decide)))
        (jsIncludes_eq_false_of_head_notMem _ _ 'N' _ rfl
          (notMem_msg3 (by decide) hN (by decide)))
    · rw [show analyzeErrorMessage FetchMethod.axios url FailKind.otherAxios =
        "Unknown error occurred while analyzing the website" from rfl]
      decide
    · rw [show analyzeErrorMessage FetchMethod.axios url FailKind.nonError =
        "Unknown error occurred while analyzing the website" from rfl]
      decide
    · intro status statusText htxt
      obtain ⟨htD, htC, htN⟩ := noPhraseCapitals_spec statusText htxt
      exact handlerStatusCode_eq_500 _
        (jsIncludes_eq_false_of_head_notMem _ _ 'D' _ rfl
          (notMem_msg_httpResponse status (by decide) (by decide) (by decide) htD))
        (jsIncludes_eq_false_of_head_notMem _ _ 'C' _ rfl
          (notMem_msg_httpResponse status (by decide) (by decide) (by decide) htC))
        (jsIncludes_eq_false_of_head_notMem _ _ 'N' _ rfl
          (notMem_msg_httpResponse status (by decide) (by decide) (by decide) htN))
    · have hb : handlerStatusCode ("Failed to analyze " ++ url ++
          " using browser simulation. The website might have strong anti-bot measures.") = 500 :=
        handlerStatusCode_eq_500 _
          (jsIncludes_eq_false_of_head_notMem _ _ 'D' _ rfl
            (notMem_msg3 (by decide) hD (by decide)))
          (jsIncludes_eq_false_of_head_notMem _ _ 'C' _ rfl
            (notMem_msg3 (by decide) hC (by decide)))
          (jsIncludes_eq_false_of_head_notMem _ _ 'N' _ rfl
            (notMem_msg3 (by decide) hN (by decide)))
      intro kind
      cases kind with
      | nonError =>
        rw [show analyzeErrorMessage FetchMethod.puppeteer url FailKind.nonError =
          "Unknown error occurred while analyzing the website" from rfl]
        decide
      | connRefused => exact hb
      | notFound => exact hb
      | httpResponse status statusText => exact hb
      | noResponse => exact hb
      | otherAxios => exact hb
    · exact handlerStatusCode_eq_500 _
        (jsIncludes_eq_false_of_head_notMem _ _ 'D' _ rfl
          (notMem_msg3 (by decide) hD (by decide)))
        (jsIncludes_eq_false_of_head_notMem _ _ 'C' _ rfl
          (notMem_msg3 (by decide) hC (by decide)))
        (jsIncludes_eq_false_of_head_notMem _ _ 'N' _ rfl
          (notMem_msg3 (by decide) hN (by decide)))

/-- Witness for C5 amended at the lowercase URL
`https://nosuchdomain.example/` and status text `Forbidden`. -/
theorem statusCode_mapping_amended_witness :
    (noPhraseCapitals "https://nosuchdomain.example/" = true ∧
      jsStartsWith "https://nosuchdomain.example/" "http" = true) ∧
    handlerStatusCode (analyzeErrorMessage FetchMethod.axios
      "https://nosuchdomain.example/" FailKind.connRefused) = 503 ∧
    handlerStatusCode (analyzeErrorMessage FetchMethod.axios
      "https://nosuchdomain.example/" FailKind.noResponse) = 503 ∧
    handlerStatusCode (analyzeErrorMessage FetchMethod.axios
      "https://nosuchdomain.example/" FailKind.notFound) = 500 ∧
    handlerStatusCode (analyzeErrorMessage FetchMethod.axios
      "https://nosuchdomain.example/" FailKind.otherAxios) = 500 ∧
    handlerStatusCode (analyzeErrorMessage FetchMethod.axios
      "https://nosuchdomain.example/" FailKind.nonError) = 500 ∧
    handlerStatusCode (analyzeErrorMessage FetchMethod.axios
      "https://nosuchdomain.example/" (FailKind.httpResponse 403 "Forbidden")) = 500 ∧
    handlerStatusCode (analyzeErrorMessage FetchMethod.puppeteer
      "https://nosuchdomain.example/" FailKind.connRefused) = 500 ∧
    handlerStatusCode (invalidUrlMessage "https://nosuchdomain.example/") = 500 :=
  have h := statusCode_mapping_amended.2 "https://nosuchdomain.example/" (by decide) (by decide)
  ⟨⟨by decide, by decide⟩, h.1, h.2.1, h.2.2.1, h.2.2.2.1, h.2.2.2.2.1,
    h.2.2.2.2.2.1 403 "Forbidden" (by decide), h.2.2.2.2.2.2.1 FailKind.connRefused,
    h.2.2.2.2.2.2.2⟩

/-- C6 counterexample: a viewport of `width=device-width` (present,
lacking only `initial-scale=1`, so not "lacking both") should per the
claim be the "otherwise" case with positive impact and score 100; the
code penalizes whenever at least one of the two tokens is absent and
returns score 75 with negative impact. -/
theorem mobileFriendliness_partial_viewport_counterexample :
    (analyzeMobileFriendliness { emptyDoc with viewport := some "width=device-width" }).score = 75 ∧
    (analyzeMobileFriendliness
        { emptyDoc with viewport := some "width=device-width" }).details.impact =
      Impact.negative := by
  constructor
  · decide
  · decide

/-- C6 amended: for every parsed document, a missing viewport meta tag
(or one with empty content, which the JS falsiness test treats the
same) scores 100 − 50 = 50 with negative impact; a nonempty viewport
lacking at least one of `width=device-width` and `initial-scale=1`
scores 100 − 25 = 75 with negative impact; and a viewport containing
both reports positive impact with score 100. -/
theorem mobileFriendliness_amended (doc : Doc) :
    (attrFalsy doc.viewport = true →
      (analyzeMobileFriendliness doc).score = 50 ∧
      (analyzeMobileFriendliness doc).details.impact = Impact.negative) ∧
    (attrFalsy doc.viewport = false →
      (jsIncludes (doc.viewport.getD "") "width=device-width" = false ∨
        jsIncludes (doc.viewport.getD "") "initial-scale=1" = false) →
      (analyzeMobileFriendliness doc).score = 75 ∧
      (analyzeMobileFriendliness doc).details.impact = Impact.negative) ∧
    (attrFalsy doc.viewport = false →
      jsIncludes (doc.viewport.getD "") "width=device-width" = true →
      jsIncludes (doc.viewport.getD "") "initial-scale=1" = true →
      (analyzeMobileFriendliness doc).score = 100 ∧
      (analyzeMobileFriendliness doc).details.impact = Impact.positive) := by
  refine ⟨fun hf => ?_, fun hf hl => ?_, fun hf hw hi => ?_⟩
  · simp [analyzeMobileFriendliness, hf]
  · rcases hl with hl | hl <;> simp [analyzeMobileFriendliness, hf, hl]
  · simp [analyzeMobileFriendliness, hf, hw, hi]

/-- Witness for C6 amended, exercising all three branches: no viewport,
a viewport with only `width=device-width`, and a fully configured one. -/
theorem mobileFriendliness_amended_witness :
    ((analyzeMobileFriendliness emptyDoc).score = 50 ∧
      (analyzeMobileFriendliness emptyDoc).details.impact = Impact.negative) ∧
    ((analyzeMobileFriendliness { emptyDoc with viewport := some "width=device-width, maximum-scale=2" }).score = 75 ∧
      (analyzeMobileFriendliness
          { emptyDoc with viewport := some "width=device-width, maximum-scale=2" }).details.impact =
        Impact.negative) ∧
    ((analyzeMobileFriendliness { emptyDoc with viewport := some "width=device-width, initial-scale=1" }).score = 100 ∧
      (analyzeMobileFriendliness
          { emptyDoc with viewport := some "width=device-width, initial-scale=1" }).details.impact =
        Impact.positive) :=
  ⟨(mobileFriendliness_amended emptyDoc).1 (by decide),
    (mobileFriendliness_amended
        { emptyDoc with viewport := some "width=device-width, maximum-scale=2" }).2.1
      (by decide) (Or.inr (by decide)),
    (mobileFriendliness_amended
        { emptyDoc with viewport := some "width=device-width, initial-scale=1" }).2.2
      (by decide) (by decide) (by decide)⟩

/-- C7 counterexample: with title `cats` and description `bobcats`,
the keyword `cats` is not a whole-word match in `bobcats` (the claim's
presence notion, `specWholeWordPresent`, is false), so per the claim
the −10 keyword penalty should apply and the score be 80 − 10 = 70;
the code's `includes` substring test treats the keyword as present and
the analyzer returns 80.  (The extraction also splits on single spaces,
`split(' ')`, not on general whitespace.) -/
theorem keywordPresence_substring_counterexample :
    (analyzeMetaDescription { emptyDoc with title := "cats", metaDescription := some "bobcats" }).score = 80 ∧
    specWholeWordPresent (titleKeywords "cats") "bobcats" = false ∧
    (titleKeywords "cats").any (fun k => jsIncludes (jsToLower "bobcats") k) = true := by
  refine ⟨?_, ?_, ?_⟩ <;> decide

/-- C7 amended: the shared extraction lowercases the title, splits it
on single space characters and keeps tokens longer than 3 characters;
the meta-description and headings analyzers then treat a keyword as
present exactly when the target's lowercase form contains it as a
plain substring (JS `includes`) — whole-word matching is used only by
the content analyzer's density regex.  Stated as exact score equations
whose penalty term is the substring test. -/
theorem keywordPresence_amended :
    (∀ doc, (doc.metaDescription.map jsTrim).getD "" ≠ "" →
      (analyzeMetaDescription doc).score =
        (if ((doc.metaDescription.map jsTrim).getD "").length < 120 then (80 : ℤ)
         else if ((doc.metaDescription.map jsTrim).getD "").length > 160 then 90 else 100) -
        (if (titleKeywords doc.title).any
            (fun keyword =>
              jsIncludes (jsToLower ((doc.metaDescription.map jsTrim).getD "")) keyword) then 0
         else 10)) ∧
    (∀ doc, (analyzeHeadings doc).score =
        (if doc.h1Texts.length = 0 then (70 : ℤ)
         else if doc.h1Texts.length > 1 then 85 else 100) -
        (if doc.h2Count = 0 then 10 else 0) -
        (if (titleKeywords doc.title).any
              (fun keyword =>
                jsIncludes (String.intercalate " " (doc.h1Texts.map jsToLower)) keyword) = false ∧
            doc.h1Texts.length > 0 then 10 else 0)) := by
  constructor
  · intro doc h
    simp only [analyzeMetaDescription, if_neg h]
    split_ifs <;> simp_all
  · intro doc
    simp only [analyzeHeadings]
    split_ifs <;> simp_all

/-- Page used to witness the amended C7 statement: its description
contains the title keyword `shelter` as a substring. -/
def shelterDoc : Doc :=
  { emptyDoc with title := "Shelter cats adoption"
                  metaDescription := some "Adopt shelter cats today" }

/-- Witness for C7 amended at a document whose description contains
the title keyword `shelter` as a substring: no penalty, score 80. -/
theorem keywordPresence_amended_witness :
    ((shelterDoc.metaDescription.map jsTrim).getD "" ≠ "") ∧
    (analyzeMetaDescription shelterDoc).score =
      (if ((shelterDoc.metaDescription.map jsTrim).getD "").length < 120 then (80 : ℤ)
       else if ((shelterDoc.metaDescription.map jsTrim).getD "").length > 160 then 90 else 100) -
      (if (titleKeywords shelterDoc.title).any
          (fun keyword =>
            jsIncludes (jsToLower ((shelterDoc.metaDescription.map jsTrim).getD "")) keyword) then 0
       else 10) :=
  ⟨by decide, keywordPresence_amended.1 shelterDoc (by decide)⟩

/-- C8 (evidence for the code bug): on a document whose title is
`((((`, the extracted keyword is `((((`, the content analyzer's
pattern `\b((((\b` does not compile (`new RegExp` throws
`SyntaxError: missing )`), and `analyzeContentQuality` throws instead
of returning a `DimensionScore` — modelled as returning `none`.  The
claim says every analyzer is total over any parsed document, including
arbitrary title characters. -/
theorem contentQuality_raises_on_regex_title :
    titleKeywords "((((" = ["(((("] ∧
    jsRegexValid "\\b((((\\b" = false ∧
    analyzeContentQuality { emptyDoc with title := "((((" } = none := by
  refine ⟨?_, ?_, ?_⟩ <;> decide

/-- Rounding preserves nonnegativity. -/
theorem jsRound_nonneg (q : ℚ) (h : 0 ≤ q) : 0 ≤ jsRound q := by
  simp only [jsRound]
  exact Int.le_floor.mpr (by push_cast; linarith)

/-- Rounding respects an integer upper bound. -/
theorem jsRound_le (q : ℚ) (b : ℤ) (h : q ≤ (b : ℚ)) : jsRound q ≤ b := by
  simp only [jsRound]
  have hlt : ⌊q + 1 / 2⌋ < b + 1 := Int.floor_lt.mpr (by push_cast; linarith)
  omega

/-- The image analyzer's score stays within 0–100 on any document with
at most as many `img[alt]` as `img` elements. -/
theorem analyzeImages_score_bounds (doc : Doc) (halt : doc.imgWithAlt ≤ doc.imgCount) :
    0 ≤ (analyzeImages doc).score ∧ (analyzeImages doc).score ≤ 100 := by
  simp only [analyzeImages]
  split_ifs with h0 hp
  · exact ⟨by norm_num, by norm_num⟩
  · have hc : (1 : ℚ) ≤ (doc.imgCount : ℚ) := by
      exact_mod_cast Nat.one_le_iff_ne_zero.mpr h0
    have ha : (doc.imgWithAlt : ℚ) ≤ (doc.imgCount : ℚ) := by exact_mod_cast halt
    have hp0 : (0 : ℚ) ≤ (doc.imgWithAlt : ℚ) / (doc.imgCount : ℚ) * 100 := by positivity
    have hp100 : (doc.imgWithAlt : ℚ) / (doc.imgCount : ℚ) * 100 ≤ 100 := by
      have hdiv : (doc.imgWithAlt : ℚ) / (doc.imgCount : ℚ) ≤ 1 :=
        div_le_one_of_le₀ ha (by linarith)

      linarith
    have h50 := jsRound_le ((100 - (doc.imgWithAlt : ℚ) / (doc.imgCount : ℚ) * 100) / 2) 50
      (by push_cast; linarith)
    have hz := jsRound_nonneg ((100 - (doc.imgWithAlt : ℚ) / (doc.imgCount : ℚ) * 100) / 2)
      (by linarith)
    constructor
    · simp only [DetailedSEOScore.score]
      omega
    · simp only [DetailedSEOScore.score]
      omega
  · exact ⟨by norm_num, by norm_num⟩

/-- The content analyzer's score, when it returns one, stays within
0–105. -/
theorem analyzeContentQuality_score_bounds (doc : Doc) (r : DetailedSEOScore)
    (h : analyzeContentQuality doc = some r) : 0 ≤ r.score ∧ r.score ≤ 105 := by
  simp only [analyzeContentQuality] at h
  split at h
  · exact absurd h (by simp)
  · rw [Option.some.injEq] at h
    subst h
    split_ifs <;> constructor <;> norm_num

/-- Page reaching the content analyzer's maximal score 105: more than
600 words, short sentences, noscript content present, and keyword
density of 12 `alpha` occurrences in 601 words (≈ 2%). -/
def contentPerfectDoc : Doc :=
  { emptyDoc with title := "alpha"
                  bodyText := String.mk (List.flatten
                    (List.replicate 12 "alpha. ".toList ++ List.replicate 588 "b. ".toList))
                  noscriptText := "good" }

set_option maxRecDepth 8000 in
/-- C9: for every parsed document (with `img[alt]` count at most `img`
count, as in any real parse), the seven analyzers other than content
quality return scores in 0–100; the content-quality analyzer's score
lies in 0–105, and 105 is actually reached (via the +5 noscript bonus
on a penalty-free page). -/
theorem analyzer_scores_in_range (doc : Doc) (halt : doc.imgWithAlt ≤ doc.imgCount) :
    (0 ≤ (analyzeTitleTag doc).score ∧ (analyzeTitleTag doc).score ≤ 100) ∧
    (0 ≤ (analyzeMetaDescription doc).score ∧ (analyzeMetaDescription doc).score ≤ 100) ∧
    (0 ≤ (analyzeHeadings doc).score ∧ (analyzeHeadings doc).score ≤ 100) ∧
    (0 ≤ (analyzeImages doc).score ∧ (analyzeImages doc).score ≤ 100) ∧
    (0 ≤ (analyzeTechnicalSEO doc).score ∧ (analyzeTechnicalSEO doc).score ≤ 100) ∧
    (0 ≤ (analyzeMobileFriendliness doc).score ∧
      (analyzeMobileFriendliness doc).score ≤ 100) ∧
    (0 ≤ (analyzeLinkingStructure doc).score ∧ (analyzeLinkingStructure doc).score ≤ 100) ∧
    (∀ r, analyzeContentQuality doc = some r → 0 ≤ r.score ∧ r.score ≤ 105) ∧
    (∃ d r, analyzeContentQuality d = some r ∧ r.score = 105) := by
  refine ⟨?_, ?_, ?_, ?_, ?_, ?_, ?_, ?_, ?_⟩
  · simp only [analyzeTitleTag]
    split_ifs <;> constructor <;> norm_num
  · simp only [analyzeMetaDescription]
    split_ifs <;> constructor <;> norm_num
  · simp only [analyzeHeadings]
    split_ifs <;> constructor <;> norm_num
  · exact analyzeImages_score_bounds doc halt
  · simp only [analyzeTechnicalSEO]
    split_ifs <;> constructor <;> norm_num
  · simp only [analyzeMobileFriendliness]
    split_ifs <;> constructor <;> norm_num
  · simp only [analyzeLinkingStructure]
    split_ifs <;> constructor <;> norm_num
  · exact fun r h => analyzeContentQuality_score_bounds doc r h
  · refine ⟨contentPerfectDoc, ?_⟩
    have h : (analyzeContentQuality contentPerfectDoc).map (fun x => x.score) = some 105 := by
      decide
    rcases Option.map_eq_some'.mp h with ⟨r, hr, hs⟩
    exact ⟨r, hr, hs⟩

/-- Witness for C9 at the empty document (0 ≤ 0 images). -/
theorem analyzer_scores_in_range_witness :
    emptyDoc.imgWithAlt ≤ emptyDoc.imgCount ∧
    ((0 ≤ (analyzeTitleTag emptyDoc).score ∧ (analyzeTitleTag emptyDoc).score ≤ 100) ∧
    (0 ≤ (analyzeMetaDescription emptyDoc).score ∧
      (analyzeMetaDescription emptyDoc).score ≤ 100) ∧
    (0 ≤ (analyzeHeadings emptyDoc).score ∧ (analyzeHeadings emptyDoc).score ≤ 100) ∧
    (0 ≤ (analyzeImages emptyDoc).score ∧ (analyzeImages emptyDoc).score ≤ 100) ∧
    (0 ≤ (analyzeTechnicalSEO emptyDoc).score ∧ (analyzeTechnicalSEO emptyDoc).score ≤ 100) ∧
    (0 ≤ (analyzeMobileFriendliness emptyDoc).score ∧
      (analyzeMobileFriendliness emptyDoc).score ≤ 100) ∧
    (0 ≤ (analyzeLinkingStructure emptyDoc).score ∧
      (analyzeLinkingStructure emptyDoc).score ≤ 100) ∧
    (∀ r, analyzeContentQuality emptyDoc = some r → 0 ≤ r.score ∧ r.score ≤ 105) ∧
    (∃ d r, analyzeContentQuality d = some r ∧ r.score = 105)) :=
  ⟨by decide, analyzer_scores_in_range emptyDoc (by decide)⟩

/-- C10: when the title text is empty, the extracted keyword list is
empty and every keyword-presence check is vacuously false, so a
non-missing meta description always incurs the −10 keyword penalty
regardless of its content, and the headings analyzer applies its −10
keyword-in-H1 penalty whenever at least one H1 exists. -/
theorem emptyTitle_keyword_penalties :
    titleKeywords "" = [] ∧
    (∀ doc, doc.title = "" → (doc.metaDescription.map jsTrim).getD "" ≠ "" →
      (analyzeMetaDescription doc).score =
        (if ((doc.metaDescription.map jsTrim).getD "").length < 120 then (80 : ℤ)
         else if ((doc.metaDescription.map jsTrim).getD "").length > 160 then 90 else 100) - 10) ∧
    (∀ doc, doc.title = "" → doc.h1Texts.length > 0 →
      (analyzeHeadings doc).score =
        (if doc.h1Texts.length > 1 then (85 : ℤ) else 100) -
        (if doc.h2Count = 0 then 10 else 0) - 10) := by
  have hkw : titleKeywords "" = [] := by decide
  refine ⟨hkw, ?_, ?_⟩
  · intro doc ht hm
    simp [analyzeMetaDescription, ht, hkw, hm]
    split_ifs <;> norm_num
  · intro doc ht h1
    simp [analyzeHeadings, ht, hkw, -List.length_eq_zero]
    split_ifs <;> omega

/-- Page with an empty title, a short description, one H1 and two H2s,
used to witness C10. -/
def emptyTitleDoc : Doc :=
  { emptyDoc with metaDescription := some "A tiny page description"
                  h1Texts := ["Welcome"]
                  h2Count := 2 }

/-- Witness for C10: on `emptyTitleDoc` the description analyzer lands
at 80 − 10 = 70 although the description length is fine, and the
headings analyzer at 100 − 10 = 90 although exactly one H1 exists. -/
theorem emptyTitle_keyword_penalties_witness :
    (emptyTitleDoc.title = "" ∧ (emptyTitleDoc.metaDescription.map jsTrim).getD "" ≠ "" ∧
      emptyTitleDoc.h1Texts.length > 0) ∧
    (analyzeMetaDescription emptyTitleDoc).score =
      (if ((emptyTitleDoc.metaDescription.map jsTrim).getD "").length < 120 then (80 : ℤ)
       else if ((emptyTitleDoc.metaDescription.map jsTrim).getD "").length > 160 then 90
       else 100) - 10 ∧
    (analyzeHeadings emptyTitleDoc).score =
      (if emptyTitleDoc.h1Texts.length > 1 then (85 : ℤ) else 100) -
      (if emptyTitleDoc.h2Count = 0 then 10 else 0) - 10 :=
  ⟨⟨by decide, by decide, by decide⟩,
    emptyTitle_keyword_penalties.2.1 emptyTitleDoc (by decide) (by decide),
    emptyTitle_keyword_penalties.2.2 emptyTitleDoc (by decide) (by decide)⟩

end AiSeo
